import Mathlib

/-
Verification of the client-side realtime conversation engine
(app/realtime/__init__.py): a shallow embedding of the conversation
store (`RealtimeConversation`) and of the client (`RealtimeClient`),
with theorems about the store reducer, the client operations and the
tool-call loop.

Modelling conventions:
* Python dicts keyed by strings become association lists
  (`List (String × _)`); `dict.get` is `alFind`, `d[k] = v` is
  `alUpsert`, `del d[k]` is `alEraseKey`.  Key order mirrors dict
  insertion order.
* The store keeps the same mutable item object in `item_lookup` and in
  `items`; an in-place mutation through one alias is visible through
  the other.  `update_item` models this aliasing by rewriting the item
  in both views.
* `formatted.audio` is heterogeneous in the source: it starts as a
  Python list of byte chunks, but the queued-speech / queued-input
  audio paths overwrite it with a flat bytearray.  `AudioData` keeps
  both representations, exactly as Python slicing / `+=` sees them.
* Exceptions become `Except.error`; a handler that raises after having
  already mutated state returns the partially mutated state together
  with the error, matching what the Python object graph holds after
  the raise.
* Machine integers are `Nat` (all quantities involved are
  non-negative); Python `//` is `Nat` division, `buffer[a:b]` is
  `(buffer.drop a).take (b - a)` (Python slices clamp, and `Nat`
  subtraction truncates at zero the same way).
* Event payloads are structured records: the fields the source reads
  are always present (the wire schema guarantees them); an absent
  `content` list is modelled as `[]`.
-/

/-- Byte-chunk list vs flat buffer: the two run-time shapes of
`item["formatted"]["audio"]` in the source. -/
inductive AudioData
  | chunks (l : List (List UInt8))
  | flat (b : List UInt8)
deriving DecidableEq, Repr

/-- Concatenated byte stream held by a `formatted.audio` value. -/
def AudioData.bytes : AudioData → List UInt8
  | .chunks l => l.flatten
  | .flat b => b

/-- Python `a[:n]` on the stored audio value: slices the chunk list by
chunk count, or the flat buffer by byte count. -/
def AudioData.pySlice : AudioData → Nat → AudioData
  | .chunks l, n => .chunks (l.take n)
  | .flat b, n => .flat (b.take n)

/-- One entry of an item's `content` list. -/
structure Content where
  type : String
  text : String
  transcript : String
deriving DecidableEq, Repr

/-- The `formatted.tool` projection of a function_call item. -/
structure FmtTool where
  type : String
  name : String
  call_id : String
  arguments : String
deriving DecidableEq, Repr

/-- The `formatted` projection initialised by `_process_item_created`. -/
structure Formatted where
  audio : AudioData
  text : String
  transcript : String
  tool : Option FmtTool
  output : Option String
deriving DecidableEq, Repr

/-- The `item` payload carried by server events
(`conversation.item.created`, `response.output_item.*`). -/
structure ItemPayload where
  id : String
  type : String
  role : String
  content : List Content
  name : String
  call_id : String
  arguments : String
  output : String
  status : String
deriving DecidableEq, Repr

/-- An item as stored in the conversation (payload fields plus the
`formatted` projection and the status the store maintains). -/
structure Item where
  id : String
  type : String
  role : String
  content : List Content
  name : String
  call_id : String
  arguments : String
  output : String
  status : String
  formatted : Formatted
deriving DecidableEq, Repr

/-- A `queued_speech_items` entry:
`{audio_start_ms, audio_end_ms?, audio?}`. -/
structure SpeechItem where
  audio_start_ms : Nat
  audio_end_ms : Option Nat
  audio : Option (List UInt8)
deriving DecidableEq, Repr

/-- A response payload: id plus the ordered list of produced item ids. -/
structure Resp where
  id : String
  output : List String
deriving DecidableEq, Repr

/-- Association-list read, matching `dict.get(k)` (first entry wins;
keys are unique in every reachable state). -/
def alFind {α : Type} (l : List (String × α)) (k : String) : Option α :=
  match l with
  | [] => none
  | (k2, v) :: rest => if k2 = k then some v else alFind rest k

/-- Association-list write, matching `d[k] = v`: replaces in place, or
appends preserving dict insertion order. -/
def alUpsert {α : Type} (l : List (String × α)) (k : String) (v : α) :
    List (String × α) :=
  match l with
  | [] => [(k, v)]
  | (k2, v2) :: rest =>
    if k2 = k then (k2, v) :: rest else (k2, v2) :: alUpsert rest k v

/-- Association-list delete, matching `del d[k]` (removes the unique
entry with that key). -/
def alEraseKey {α : Type} (l : List (String × α)) (k : String) :
    List (String × α) :=
  match l with
  | [] => []
  | (k2, v) :: rest => if k2 = k then rest else (k2, v) :: alEraseKey rest k

/-- Python `list.remove(x)`: drops the first element equal to `x`
(no-op if absent; in every state the source reaches, the element is
present). -/
def removeFirst {α : Type} [DecidableEq α] (l : List α) (x : α) : List α :=
  match l with
  | [] => []
  | y :: ys => if y = x then ys else y :: removeFirst ys x

/-- Replace the `i`-th element of a list by `f` of it (Python in-place
update `l[i] = ...`; bounds are checked by the callers). -/
def listModify {α : Type} (l : List α) (i : Nat) (f : α → α) : List α :=
  match l, i with
  | [], _ => []
  | x :: xs, 0 => f x :: xs
  | x :: xs, Nat.succ n => x :: listModify xs n f

/-- RealtimeConversation.default_frequency =
config.features.audio.sample_rate (chainlit default: 24000 Hz). -/
def default_frequency : Nat := 24000

/-- The state held by a `RealtimeConversation`. -/
structure ConvState where
  item_lookup : List (String × Item)
  items : List Item
  response_lookup : List (String × Resp)
  responses : List Resp
  queued_speech_items : List (String × SpeechItem)
  queued_transcript_items : List (String × String)
  queued_input_audio : Option (List UInt8)
deriving DecidableEq, Repr

/-- RealtimeConversation.clear (also the `__init__` state). -/
def ConvState.clear : ConvState :=
  { item_lookup := [], items := [], response_lookup := [], responses := [],
    queued_speech_items := [], queued_transcript_items := [],
    queued_input_audio := none }

/-- RealtimeConversation.queue_input_audio. -/
def queue_input_audio (s : ConvState) (a : List UInt8) : ConvState :=
  { s with queued_input_audio := some a }

/-- Mutation of the item with a given id: the source mutates one dict
object that both `item_lookup` and `items` reference, so the update is
visible in both views. -/
def update_item (s : ConvState) (id : String) (f : Item → Item) : ConvState :=
  { s with
    item_lookup := s.item_lookup.map fun p => if p.1 = id then (p.1, f p.2) else p,
    items := s.items.map fun it => if it.id = id then f it else it }

/-- Mutation of the response with a given id (same aliasing as items). -/
def update_response (s : ConvState) (id : String) (f : Resp → Resp) : ConvState :=
  { s with
    response_lookup := s.response_lookup.map fun p => if p.1 = id then (p.1, f p.2) else p,
    responses := s.responses.map fun r => if r.id = id then f r else r }

/-- The closed set of server events the store reduces over
(`RealtimeConversation.EventProcessors`). -/
inductive REvent
  | itemCreated (item : ItemPayload)
  | itemTruncated (item_id : String) (audio_end_ms : Nat)
  | itemDeleted (item_id : String)
  | transcriptionCompleted (item_id : String) (content_index : Nat) (transcript : String)
  | speechStarted (item_id : String) (audio_start_ms : Nat)
  | speechStopped (item_id : String) (audio_end_ms : Nat)
  | responseCreated (response : Resp)
  | outputItemAdded (response_id : String) (item : ItemPayload)
  | outputItemDone (item : ItemPayload)
  | contentPartAdded (item_id : String) (part : Content)
  | audioTranscriptDelta (item_id : String) (content_index : Nat) (delta : String)
  | audioDelta (item_id : String) (content_index : Nat) (delta : String)
  | textDelta (item_id : String) (content_index : Nat) (delta : String)
  | fcArgumentsDelta (item_id : String) (delta : String)
deriving DecidableEq, Repr

/-- The structured `delta` part of the `(item, delta)` result pair. -/
inductive DeltaRet
  | transcript (s : String)
  | audio (b : List UInt8)
  | text (s : String)
  | arguments (s : String)
deriving DecidableEq, Repr

deriving instance DecidableEq for Except

/-- Value of the six-bit base64 alphabet at a character, if any. -/
def b64val (c : Char) : Option Nat :=
  if 'A' ≤ c ∧ c ≤ 'Z' then some (c.toNat - 65)
  else if 'a' ≤ c ∧ c ≤ 'z' then some (c.toNat - 97 + 26)
  else if '0' ≤ c ∧ c ≤ '9' then some (c.toNat - 48 + 52)
  else if c = '+' then some 62
  else if c = '/' then some 63
  else none

/-- Decode base64 quartets into bytes ('=' padding only at the end,
as in a standard-form payload). -/
def b64quads : List Char → Option (List UInt8)
  | [] => some []
  | [a, b, '=', '='] => do
    let va ← b64val a
    let vb ← b64val b
    let n := va * 262144 + vb * 4096
    some [UInt8.ofNat (n / 65536)]
  | [a, b, c, '='] => do
    let va ← b64val a
    let vb ← b64val b
    let vc ← b64val c
    let n := va * 262144 + vb * 4096 + vc * 64
    some [UInt8.ofNat (n / 65536), UInt8.ofNat (n / 256 % 256)]
  | a :: b :: c :: d :: rest => do
    let va ← b64val a
    let vb ← b64val b
    let vc ← b64val c
    let vd ← b64val d
    let n := va * 262144 + vb * 4096 + vc * 64 + vd
    let tail ← b64quads rest
    some ([UInt8.ofNat (n / 65536), UInt8.ofNat (n / 256 % 256),
           UInt8.ofNat (n % 256)] ++ tail)
  | _ => none

/-- base64.b64decode as used by `base64_to_array_buffer`: characters
outside the alphabet are discarded, then quartets are decoded;
malformed padding is an error (`none`). -/
def b64decode (s : String) : Option (List UInt8) :=
  b64quads (s.toList.filter fun c => (b64val c).isSome || c = '=')

/-- Concatenation of the `text` of all `text`/`input_text` content
entries, in `content` order (lines 266-270 of the source). -/
def seed_text (content : List Content) : String :=
  ((content.filter fun c => c.type == "text" || c.type == "input_text").map
    Content.text).foldl (· ++ ·) ""

/-- A freshly initialised `formatted` projection
(`{"audio": [], "text": "", "transcript": ""}`). -/
def freshFormatted : Formatted :=
  { audio := .chunks [], text := "", transcript := "", tool := none,
    output := none }

/-- The fresh copy `new_item = item.copy()` with its `formatted`
projection attached (lines 255 and 259). -/
def mkNewItem (p : ItemPayload) : Item :=
  { id := p.id, type := p.type, role := p.role, content := p.content,
    name := p.name, call_id := p.call_id, arguments := p.arguments,
    output := p.output, status := p.status, formatted := freshFormatted }

/-- Lines 276-294 of `_process_item_created`: per-variant status /
tool / output updates applied to the item after the queue drains. -/
def created_variant (it3 : Item) (s2 : ConvState) (p : ItemPayload) :
    Item × ConvState × Except String Unit :=
  if p.type == "message" then
    if p.role == "user" then
      let it' := { it3 with status := "completed" }
      match s2.queued_input_audio with
      | some a =>
        if a.isEmpty then (it', s2, .ok ())
        else ({ it' with formatted := { it'.formatted with audio := .flat a } },
              { s2 with queued_input_audio := none }, .ok ())
      | none => (it', s2, .ok ())
    else ({ it3 with status := "in_progress" }, s2, .ok ())
  else if p.type == "function_call" then
    let tl : FmtTool :=
      { type := "function", name := p.name, call_id := p.call_id, arguments := "" }
    ({ it3 with
         status := "in_progress",
         formatted := { it3.formatted with tool := some tl } }, s2, .ok ())
  else if p.type == "function_call_output" then
    ({ it3 with
         status := "completed",
         formatted := { it3.formatted with output := some p.output } }, s2, .ok ())
  else (it3, s2, .ok ())

/-- Lines 265-275 of `_process_item_created`: seed `formatted.text`
from the `text`/`input_text` content entries, then drain a queued
transcript, then continue with the per-variant stage. -/
def created_rest (it1 : Item) (s1 : ConvState) (p : ItemPayload) :
    Item × ConvState × Except String Unit :=
  let it2 := { it1 with formatted :=
    { it1.formatted with text := it1.formatted.text ++ seed_text p.content } }
  match alFind s1.queued_transcript_items p.id with
  | none => created_variant it2 s1 p
  | some t =>
    created_variant { it2 with formatted := { it2.formatted with transcript := t } }
      { s1 with queued_transcript_items := alEraseKey s1.queued_transcript_items p.id }
      p

/-- Stages of `_process_item_created` applied to the fresh item:
returns the item as finally mutated, the state with consumed queues,
and an error when the queued speech entry lacks its `audio` key
(line 261 raises `KeyError('audio')` in that case, before any queue is
consumed). -/
def created_core (s : ConvState) (p : ItemPayload) :
    Item × ConvState × Except String Unit :=
  -- lines 260-264: drain queued speech audio
  match alFind s.queued_speech_items p.id with
  | none => created_rest (mkNewItem p) s p
  | some sp =>
    match sp.audio with
    | none => (mkNewItem p, s, .error "audio")
    | some a =>
      created_rest
        { mkNewItem p with formatted := { freshFormatted with audio := .flat a } }
        { s with queued_speech_items := alEraseKey s.queued_speech_items p.id }
        p

/-- RealtimeConversation._process_item_created.  The item is inserted
into both views before the remaining stages run on the same object, so
the inserted item is the item as of the end of the handler (or as of
the raise, on the `KeyError('audio')` path). -/
def process_item_created (s : ConvState) (p : ItemPayload) :
    ConvState × Except String (Option Item × Option DeltaRet) :=
  let isNew := (alFind s.item_lookup p.id).isNone
  let (it, s1, r) := created_core s p
  let s2 :=
    if isNew then
      { s1 with item_lookup := s1.item_lookup ++ [(p.id, it)],
                items := s1.items ++ [it] }
    else s1
  match r with
  | .ok _ => (s2, .ok (some it, none))
  | .error e => (s2, .error e)

/-- RealtimeConversation.process_event: total on states, with raised
exceptions as `Except.error` (paired with the state as mutated up to
the raise).  The extra argument is the captured input audio buffer,
supplied only for `input_audio_buffer.speech_stopped`. -/
def process_event (s : ConvState) (e : REvent) (extra : Option (List UInt8)) :
    ConvState × Except String (Option Item × Option DeltaRet) :=
  match e with
  | .itemCreated p => process_item_created s p
  | .itemTruncated item_id audio_end_ms =>
    match alFind s.item_lookup item_id with
    | none => (s, .error ("item.truncated: Item \"" ++ item_id ++ "\" not found"))
    | some item =>
      let end_index := audio_end_ms * default_frequency / 1000
      let f := fun (it : Item) =>
        { it with formatted := { it.formatted with
                                   transcript := "",
                                   audio := it.formatted.audio.pySlice end_index } }
      (update_item s item_id f, .ok (some (f item), none))
  | .itemDeleted item_id =>
    match alFind s.item_lookup item_id with
    | none => (s, .error ("item.deleted: Item \"" ++ item_id ++ "\" not found"))
    | some item =>
      ({ s with item_lookup := alEraseKey s.item_lookup item.id,
                items := removeFirst s.items item },
       .ok (some item, none))
  | .transcriptionCompleted item_id content_index transcript =>
    let formatted_transcript := if transcript = "" then " " else transcript
    match alFind s.item_lookup item_id with
    | none =>
      let q := alUpsert s.queued_transcript_items item_id formatted_transcript
      ({ s with queued_transcript_items := q }, .ok (none, none))
    | some item =>
      if content_index < item.content.length then
        let f := fun (it : Item) =>
          { it with
            content := listModify it.content content_index
              (fun c => { c with transcript := transcript }),
            formatted := { it.formatted with transcript := formatted_transcript } }
        (update_item s item_id f,
         .ok (some (f item), some (.transcript transcript)))
      else (s, .error "IndexError: list index out of range")
  | .speechStarted item_id audio_start_ms =>
    let sp : SpeechItem :=
      { audio_start_ms := audio_start_ms, audio_end_ms := none, audio := none }
    ({ s with queued_speech_items := alUpsert s.queued_speech_items item_id sp },
     .ok (none, none))
  | .speechStopped item_id audio_end_ms =>
    match extra with
    | none => (s, .error "TypeError: missing input_audio_buffer argument")
    | some buf =>
      match alFind s.queued_speech_items item_id with
      | none => (s, .error item_id)
      | some sp =>
        let sp1 := { sp with audio_end_ms := some audio_end_ms }
        let sp2 :=
          if buf.isEmpty then sp1
          else
            let start_index := sp.audio_start_ms * default_frequency / 1000
            let end_index := audio_end_ms * default_frequency / 1000
            { sp1 with audio := some ((buf.drop start_index).take (end_index - start_index)) }
        ({ s with queued_speech_items := alUpsert s.queued_speech_items item_id sp2 },
         .ok (none, none))
  | .responseCreated r =>
    if (alFind s.response_lookup r.id).isSome then (s, .ok (none, none))
    else
      ({ s with response_lookup := s.response_lookup ++ [(r.id, r)],
                responses := s.responses ++ [r] },
       .ok (none, none))
  | .outputItemAdded response_id p =>
    match alFind s.response_lookup response_id with
    | none =>
      (s, .error ("response.output_item.added: Response \"" ++ response_id ++ "\" not found"))
    | some _ =>
      (update_response s response_id (fun r => { r with output := r.output ++ [p.id] }),
       .ok (none, none))
  | .outputItemDone p =>
    match alFind s.item_lookup p.id with
    | none =>
      (s, .error ("response.output_item.done: Item \"" ++ p.id ++ "\" not found"))
    | some item =>
      let f := fun (it : Item) => { it with status := p.status }
      (update_item s p.id f, .ok (some (f item), none))
  | .contentPartAdded item_id part =>
    match alFind s.item_lookup item_id with
    | none =>
      (s, .error ("response.content_part.added: Item \"" ++ item_id ++ "\" not found"))
    | some item =>
      let f := fun (it : Item) => { it with content := it.content ++ [part] }
      (update_item s item_id f, .ok (some (f item), none))
  | .audioTranscriptDelta item_id content_index delta =>
    match alFind s.item_lookup item_id with
    | none =>
      (s, .error ("response.audio_transcript.delta: Item \"" ++ item_id ++ "\" not found"))
    | some item =>
      if content_index < item.content.length then
        let f := fun (it : Item) =>
          { it with
            content := listModify it.content content_index
              (fun c => { c with transcript := c.transcript ++ delta }),
            formatted := { it.formatted with
              transcript := it.formatted.transcript ++ delta } }
        (update_item s item_id f,
         .ok (some (f item), some (.transcript delta)))
      else (s, .error "IndexError: list index out of range")
  | .audioDelta item_id _content_index delta =>
    match alFind s.item_lookup item_id with
    | none => (s, .ok (none, none))
    | some item =>
      match b64decode delta with
      | none => (s, .error "binascii.Error: invalid base64-encoded string")
      | some bytes =>
        match item.formatted.audio with
        | .flat _ =>
          (s, .error "TypeError: can only concatenate list (not bytearray) chunkwise")
        | .chunks l =>
          let f := fun (it : Item) =>
            { it with formatted := { it.formatted with audio := .chunks (l ++ [bytes]) } }
          (update_item s item_id f,
           .ok (some (f item), some (.audio bytes)))
  | .textDelta item_id content_index delta =>
    match alFind s.item_lookup item_id with
    | none =>
      (s, .error ("response.text.delta: Item \"" ++ item_id ++ "\" not found"))
    | some item =>
      if content_index < item.content.length then
        let f := fun (it : Item) =>
          { it with
            content := listModify it.content content_index
              (fun c => { c with text := c.text ++ delta }),
            formatted := { it.formatted with text := it.formatted.text ++ delta } }
        (update_item s item_id f,
         .ok (some (f item), some (.text delta)))
      else (s, .error "IndexError: list index out of range")
  | .fcArgumentsDelta item_id delta =>
    match alFind s.item_lookup item_id with
    | none =>
      (s, .error ("response.function_call_arguments.delta: Item \"" ++ item_id ++ "\" not found"))
    | some item =>
      let fArgs := fun (it : Item) => { it with arguments := it.arguments ++ delta }
      match item.formatted.tool with
      | none =>
        -- item["arguments"] += delta already ran; formatted["tool"] raises KeyError
        (update_item s item_id fArgs, .error "tool")
      | some t =>
        let t' := { t with arguments := t.arguments ++ delta }
        let f := fun (it : Item) =>
          { fArgs it with formatted := { it.formatted with tool := some t' } }
        (update_item s item_id f,
         .ok (some (f item), some (.arguments delta)))

/-
Client (`RealtimeClient`).  The transport is modelled by its
observable footprint: the subscription table (`event_handlers` of the
`RealtimeAPI`), the connection flag (`ws is not None`), and the list
of wire events a client operation sends while connected.
-/

/-- The client-side handler a subscription points at. -/
inductive HandlerId
  | log_event
  | on_session_created
  | process_event_handler
  | on_speech_started
  | on_speech_stopped
  | on_item_created
  | on_output_item_done
deriving DecidableEq, Repr

/-- The subscriptions installed by `_add_api_event_handlers`, in
registration order. -/
def api_event_handlers : List (String × HandlerId) :=
  [("client.*", .log_event),
   ("server.*", .log_event),
   ("server.session.created", .on_session_created),
   ("server.response.created", .process_event_handler),
   ("server.response.output_item.added", .process_event_handler),
   ("server.response.content_part.added", .process_event_handler),
   ("server.input_audio_buffer.speech_started", .on_speech_started),
   ("server.input_audio_buffer.speech_stopped", .on_speech_stopped),
   ("server.conversation.item.created", .on_item_created),
   ("server.conversation.item.truncated", .process_event_handler),
   ("server.conversation.item.deleted", .process_event_handler),
   ("server.conversation.item.input_audio_transcription.completed", .process_event_handler),
   ("server.response.audio_transcript.delta", .process_event_handler),
   ("server.response.audio.delta", .process_event_handler),
   ("server.response.text.delta", .process_event_handler),
   ("server.response.function_call_arguments.delta", .process_event_handler),
   ("server.response.output_item.done", .on_output_item_done)]

/-- Session configuration.  `input_audio_transcription` is modelled by
its `model` tag, `turn_detection` by its `type` tag, a tool definition
by its `name`; `temperature_times_ten` is the sampling temperature
scaled by ten (0.8 in the source). -/
structure SessionConfig where
  modalities : List String
  instructions : String
  voice : String
  input_audio_format : String
  output_audio_format : String
  input_audio_transcription : Option String
  turn_detection : Option String
  tools : List String
  tool_choice : String
  temperature_times_ten : Nat
  max_response_output_tokens : Nat
deriving DecidableEq, Repr

/-- RealtimeClient.default_session_config. -/
def default_session_config : SessionConfig :=
  { modalities := ["text", "audio"],
    instructions := "System settings:\nTool use: enabled.\n\nInstructions:\n- You are a Voice agent called Troy Williams responsible for helping Troy Williams in thier Dissertations Writing\n- You will always answer from knowledgebase you have access to via get_answer_from_knowledgebase other than if someone asks you to search the internet or perform a task that is possible with the tools you have access to\n- It is okay to ask the user questions\n- Use appropriate tools, These are tools availble to you [get_answer_from_knowledgebase,execute_python_file, open_browser,create_python_file,draft_linkedin_post,query_stock_price, draw_plotly_chart, generate_image, internet_search]\n- Be open to exploration and conversation\n- Personality:\n- Be upbeat and genuine\n- Try speaking quickly as if excited\n",
    voice := "shimmer",
    input_audio_format := "pcm16",
    output_audio_format := "pcm16",
    input_audio_transcription := some "whisper-1",
    turn_detection := some "server_vad",
    tools := [],
    tool_choice := "auto",
    temperature_times_ten := 8,
    max_response_output_tokens := 4096 }

/-- The state of a `RealtimeClient` (registry entries carry the tool
definition's name; handler behaviour is supplied separately where the
tool-call loop needs it). -/
structure ClientState where
  session_created : Bool
  tools : List (String × String)
  session_config : SessionConfig
  input_audio_buffer : List UInt8
  conversation : ConvState
  event_handlers : List (String × HandlerId)
  connected : Bool
deriving DecidableEq, Repr

/-- RealtimeClient._reset_config. -/
def reset_config (s : ClientState) : ClientState :=
  { s with
      session_created := false,
      tools := [],
      session_config := default_session_config,
      input_audio_buffer := [] }

/-- The body of the async `RealtimeClient.disconnect` (what running the
coroutine would do): clear the session flag, clear the store, close the
transport. -/
def disconnect_body (s : ClientState) : ClientState :=
  { s with
      session_created := false,
      conversation := ConvState.clear,
      connected := false }

/-- RealtimeClient.reset, as executed: `self.disconnect()` merely
builds a coroutine object that is never awaited, so `disconnect_body`
does not run; then the transport subscriptions are cleared, the config
reset, and `_add_api_event_handlers` re-installs the engine's own
subscriptions. -/
def reset (s : ClientState) : ClientState :=
  let s1 := { s with event_handlers := [] }
  let s2 := reset_config s1
  { s2 with event_handlers := s2.event_handlers ++ api_event_handlers }

/-- RealtimeClient.get_turn_detection_type:
`session_config.get("turn_detection", {}).get("type")`. -/
def get_turn_detection_type (s : ClientState) : Option String :=
  s.session_config.turn_detection

/-- Wire events a client operation can send (the fields the claims
inspect; payload-free events are bare tags). -/
inductive Sent
  | input_audio_buffer_commit
  | response_create
  | response_cancel
  | item_truncate (item_id : String) (content_index : Nat) (audio_end_ms : Nat)
  | item_create_function_call_output (call_id : String) (output : String)
deriving DecidableEq, Repr

/-- RealtimeClient.create_response.  `int((n / f) * 1000)`-style
conversions appear only in `cancel_response`; here the buffer is
committed and stashed exactly when turn detection is off and the local
buffer is non-empty. -/
def create_response (s : ClientState) : ClientState × List Sent :=
  if get_turn_detection_type s = none ∧ s.input_audio_buffer ≠ [] then
    ({ s with
         conversation := queue_input_audio s.conversation s.input_audio_buffer,
         input_audio_buffer := [] },
     [.input_audio_buffer_commit, .response_create])
  else (s, [.response_create])

/-- First index whose content entry has type `audio`
(`next((i for i, c in enumerate(content) if c["type"] == "audio"), -1)`;
`none` models the `-1` sentinel). -/
def first_audio_index (content : List Content) : Option Nat :=
  content.findIdx? fun c => c.type == "audio"

/-- Bit length of a natural number, with structural fuel (2500 bits
covers every quantity of this model). -/
def bitlen_aux : Nat → Nat → Nat
  | 0, _ => 0
  | _ + 1, 0 => 0
  | fuel + 1, n => bitlen_aux fuel (n / 2) + 1

/-- Bit length of a natural number (0 for 0). -/
def bitlen (n : Nat) : Nat := bitlen_aux 2500 n

/-- Round the non-negative real `(s + ε) · 2^e` (where `0 ≤ ε < 1` and
`ε > 0` iff `sticky`; callers pass `sticky` only when `s` has more
than 53 bits) to 53 significand bits, IEEE round-to-nearest with ties
to even: the result `(m, e2)` denotes `m · 2^e2`. -/
def round_mantissa53 (s : Nat) (sticky : Bool) (e : Int) : Nat × Int :=
  let B := bitlen s
  if B ≤ 53 then (s, e)
  else
    let shift := B - 53
    let m0 := s / 2 ^ shift
    let low := s % 2 ^ shift
    let half := 2 ^ (shift - 1)
    let up :=
      if half < low then true
      else if low < half then false
      else if sticky then true
      else m0 % 2 = 1
    let m1 := if up then m0 + 1 else m0
    if m1 = 2 ^ 53 then (2 ^ 52, e + shift + 1) else (m1, e + shift)

/-- `sample_count / default_frequency` as CPython evaluates int/int
true division: the exact rational correctly rounded to binary64
(round-to-nearest, ties to even).  The 2^70 guard scaling leaves the
half-way bit and a sticky flag below the 53 kept bits for every
positive quotient; no overflow or subnormal arises for any realistic
`n` (only astronomically large counts, `n` around 24000·2^1024, would
make the source raise OverflowError instead). -/
def float_div_frequency (n : Nat) : Nat × Int :=
  let t := n * 2 ^ 70
  round_mantissa53 (t / default_frequency) (t % default_frequency ≠ 0) (-70)

/-- Multiplication of a binary64 value by the exactly representable
1000, correctly rounded. -/
def float_times_1000 : Nat × Int → Nat × Int
  | (m, e) => round_mantissa53 (m * 1000) false e

/-- Python `int()` on a non-negative binary64 value `m · 2^e`:
truncation toward zero. -/
def dyadic_trunc : Nat × Int → Nat
  | (m, e) =>
    match e with
    | Int.ofNat k => m * 2 ^ k
    | Int.negSucc k => m / 2 ^ (k + 1)

/-- `int((sample_count / self.conversation.default_frequency) * 1000)`
exactly as the source evaluates it: both arithmetic operations in IEEE
binary64, then truncation toward zero.  This differs from the exact
`⌊sample_count * 1000 / default_frequency⌋` wherever the two float
roundings land just below an integer — first at `sample_count = 24024`,
where the float computation yields 1000 but the exact floor is 1001. -/
def audio_end_ms_float (sample_count : Nat) : Nat :=
  dyadic_trunc (float_times_1000 (float_div_frequency sample_count))

/-- RealtimeClient.cancel_response.  Returns the wire events sent (in
order) and either the returned `item` (`none` for `{"item": None}`) or
the raised exception.  Python's `if not id` is truthiness: `None` and
`""` both take the id-less branch.  `audio_end_ms` is
`int((sample_count / default_frequency) * 1000)` evaluated in binary64
floating point, modelled exactly by `audio_end_ms_float`. -/
def cancel_response (s : ClientState) (id : Option String) (sample_count : Nat) :
    List Sent × Except String (Option Item) :=
  match id with
  | none => ([.response_cancel], .ok none)
  | some i =>
    if i = "" then ([.response_cancel], .ok none)
    else
      match alFind s.conversation.item_lookup i with
      | none => ([], .error ("Could not find item \"" ++ i ++ "\""))
      | some item =>
        if item.type ≠ "message" then
          ([], .error "Can only cancelResponse messages with type \"message\"")
        else if item.role ≠ "assistant" then
          ([], .error "Can only cancelResponse messages with role \"assistant\"")
        else
          match first_audio_index item.content with
          | none => ([.response_cancel], .error "Could not find audio on item to cancel")
          | some audio_index =>
            ([.response_cancel,
              .item_truncate i audio_index (audio_end_ms_float sample_count)],
             .ok (some item))

/-- Hex digit for `\uXXXX` escapes. -/
def hexDigit (n : Nat) : Char :=
  if n < 10 then Char.ofNat (48 + n) else Char.ofNat (97 + n - 10)

/-- Four-digit lowercase hex, as produced by `json.dumps`. -/
def hex4 (n : Nat) : String :=
  String.mk [hexDigit (n / 4096 % 16), hexDigit (n / 256 % 16),
             hexDigit (n / 16 % 16), hexDigit (n % 16)]

/-- Escaping of one character inside a JSON string literal, following
`json.dumps` with its default `ensure_ascii=True`. -/
def json_escape_char (c : Char) : String :=
  if c = '"' then "\\\""
  else if c = '\\' then "\\\\"
  else if c = '\n' then "\\n"
  else if c = '\t' then "\\t"
  else if c = '\r' then "\\r"
  else if c = Char.ofNat 8 then "\\b"
  else if c = Char.ofNat 12 then "\\f"
  else if c.toNat < 32 then "\\u" ++ hex4 c.toNat
  else if c.toNat ≤ 126 then String.singleton c
  else if c.toNat < 65536 then "\\u" ++ hex4 c.toNat
  else
    let v := c.toNat - 65536
    "\\u" ++ hex4 (55296 + v / 1024) ++ "\\u" ++ hex4 (56320 + v % 1024)

/-- A JSON string literal for `msg`. -/
def json_quote (msg : String) : String :=
  "\"" ++ String.join (msg.toList.map json_escape_char) ++ "\""

/-- `json.dumps({"error": str(e)})` (note `json.dumps`'s default
separator puts one space after the colon). -/
def json_dumps_error (msg : String) : String :=
  "\x7b\"error\": " ++ json_quote msg ++ "\x7d"

/-- Collaborator semantics for one tool call: `json.loads` on the
accumulated argument string, the handler registry (`self.tools`, name
to handler), and `json.dumps` on the handler result.  `A` is the type
of parsed argument objects, `R` of handler results; each fallible step
yields `str(e)` of the exception it raises. -/
structure ToolCallEnv (A R : Type) where
  json_loads : String → Except String A
  handlers : List (String × (A → Except String R))
  json_dumps : R → Except String String

/-- The body of the `try` block of `_call_tool` up to the computation
of the serialized output: parse arguments, look up the tool (a missing
tool raises `Tool "<name>" has not been added`), run the handler,
serialize the result. -/
def tool_attempt {A R : Type} (env : ToolCallEnv A R) (tool : FmtTool) :
    Except String String :=
  match env.json_loads tool.arguments with
  | .error e => .error e
  | .ok args =>
    match alFind env.handlers tool.name with
    | none => .error ("Tool \"" ++ tool.name ++ "\" has not been added")
    | some h =>
      match h args with
      | .error e => .error e
      | .ok r => env.json_dumps r

/-- RealtimeClient._call_tool on a connected transport: any exception
from the `try` block is caught and materialized as a
`function_call_output` item whose output is `json.dumps({"error":
str(e)})` for the same `call_id`; in either case `create_response()`
follows.  The function is total: no exception escapes the loop. -/
def call_tool {A R : Type} (env : ToolCallEnv A R) (s : ClientState)
    (tool : FmtTool) : ClientState × List Sent :=
  let out :=
    match tool_attempt env tool with
    | .ok o => o
    | .error e => json_dumps_error e
  let cr := create_response s
  (cr.1, Sent.item_create_function_call_output tool.call_id out :: cr.2)

/-
Invariant and reachability for the store, plus concrete fixtures used
by the witnesses and counterexamples below.
-/

/-- Alignment of the two item views: `item_lookup` is exactly `items`
keyed by item id (hence the k-th key of the lookup denotes the k-th
element of `items`), and item ids are pairwise distinct. -/
def StoreAligned (s : ConvState) : Prop :=
  s.item_lookup = s.items.map (fun it => (it.id, it))
  ∧ (s.items.map Item.id).Nodup

/-- States reachable from a freshly cleared store by any sequence of
`process_event` calls (with any extra argument, events that raise
included: the state they leave behind is the partially mutated one). -/
inductive Reachable : ConvState → Prop
  | init : Reachable ConvState.clear
  | step (e : REvent) (extra : Option (List UInt8)) {s : ConvState} :
      Reachable s → Reachable (process_event s e extra).1

/-- Payload with only identity fields set (the rest as the wire sends
for that variant). -/
def mkPayload (id type role : String) (content : List Content) : ItemPayload :=
  { id := id, type := type, role := role, content := content, name := "",
    call_id := "", arguments := "", output := "", status := "" }

/-- A content entry of type `audio`. -/
def audioContent : Content := { type := "audio", text := "", transcript := "" }

/-- Assistant message item holding one 48-byte audio chunk. -/
def c1_item : Item :=
  { id := "A", type := "message", role := "assistant",
    content := [audioContent], name := "", call_id := "", arguments := "",
    output := "", status := "in_progress",
    formatted := { audio := .chunks [List.replicate 48 0], text := "",
                   transcript := "x", tool := none, output := none } }

/-- Store holding `c1_item`. -/
def c1_state : ConvState :=
  { ConvState.clear with item_lookup := [("A", c1_item)], items := [c1_item] }

/-- A connected client with a non-empty store. -/
def c2_client : ClientState :=
  { session_created := true, tools := [("get_time", "get_time")],
    session_config := default_session_config, input_audio_buffer := [0, 1],
    conversation := c1_state, event_handlers := api_event_handlers,
    connected := true }

/-- A freshly constructed client (empty store, default config). -/
def empty_client : ClientState :=
  { session_created := false, tools := [],
    session_config := default_session_config, input_audio_buffer := [],
    conversation := ConvState.clear, event_handlers := api_event_handlers,
    connected := false }

/-- Tool-call collaborators whose argument parse fails (arguments that
are not valid JSON). -/
def c3_env : ToolCallEnv Unit Unit :=
  { json_loads := fun _ => .error "Expecting value: line 1 column 1 (char 0)",
    handlers := [],
    json_dumps := fun _ => .ok "null" }

/-- A completed function_call's formatted tool with junk arguments. -/
def c3_tool : FmtTool :=
  { type := "function", name := "get_time", call_id := "call_1",
    arguments := "not json" }

/-- Assistant message with a text part then an audio part. -/
def c4_item : Item :=
  { id := "it1", type := "message", role := "assistant",
    content := [{ type := "text", text := "t", transcript := "" }, audioContent],
    name := "", call_id := "", arguments := "", output := "",
    status := "completed", formatted := freshFormatted }

/-- Client whose store holds `c4_item`. -/
def c4_client : ClientState :=
  { empty_client with conversation :=
      { ConvState.clear with item_lookup := [("it1", c4_item)], items := [c4_item] } }

/-- User message payloads for the alignment run. -/
def pA : ItemPayload := mkPayload "A" "message" "user" []

/-- Second user message payload. -/
def pB : ItemPayload := mkPayload "B" "message" "user" []

/-- Create A, create B, delete A: a run that exercises insertion and
deletion (B's current ordinal differs from its historical one). -/
def c5_state : ConvState :=
  (process_event
    (process_event
      (process_event ConvState.clear (.itemCreated pA) none).1
      (.itemCreated pB) none).1
    (.itemDeleted "A") none).1

/-- User message payload with id X. -/
def pX : ItemPayload := mkPayload "X" "message" "user" []

/-- Store with a queued transcript for the not-yet-created item X. -/
def c7_queued : ConvState :=
  { ConvState.clear with queued_transcript_items := [("X", "hi")] }

/-- Run for the C7 counterexample: speech_started X, then the
transcript completes before X exists, then X is created while its
queued speech entry still lacks an audio slice. -/
def c7_state : ConvState :=
  (process_event
    (process_event
      (process_event ConvState.clear (.speechStarted "X" 0) none).1
      (.transcriptionCompleted "X" 0 "hi") none).1
    (.itemCreated pX) none).1

/-- Assistant item whose audio is a chunk list. -/
def c8_item : Item :=
  { id := "B8", type := "message", role := "assistant",
    content := [audioContent], name := "", call_id := "", arguments := "",
    output := "", status := "in_progress",
    formatted := { audio := .chunks [[1]], text := "", transcript := "",
                   tool := none, output := none } }

/-- Store holding `c8_item`. -/
def c8_state : ConvState :=
  { ConvState.clear with item_lookup := [("B8", c8_item)], items := [c8_item] }

/-- User message payload with id U8. -/
def pU8 : ItemPayload := mkPayload "U8" "message" "user" []

/-- Run for the C8 counterexample: the local input-audio buffer is
stashed, user item U8 is created (its `formatted.audio` becomes the
flat stashed buffer), then an audio delta targets U8. -/
def c8_flat_state : ConvState :=
  (process_event (queue_input_audio ConvState.clear [9, 9])
    (.itemCreated pU8) none).1

/-- Store with a queued speech entry for item S (speech started at
0 ms, not yet stopped). -/
def c9_state : ConvState :=
  { ConvState.clear with
      queued_speech_items :=
        [("S", { audio_start_ms := 0, audio_end_ms := none, audio := none })] }

/-- User message payload with id D. -/
def pD : ItemPayload := mkPayload "D" "message" "user" []

/-- Duplicate-creation payload for D with different content. -/
def pD2 : ItemPayload :=
  mkPayload "D" "message" "user" [{ type := "input_text", text := "again", transcript := "" }]

/-- Store in which D already exists. -/
def c10_state : ConvState :=
  (process_event ConvState.clear (.itemCreated pD) none).1

/-- Run for the C10 counterexample: D exists, speech_started for D is
pending without audio, and D's created event is replayed. -/
def c10_crash_state : ConvState :=
  (process_event c10_state (.speechStarted "D" 5) none).1

/-
Theorems.  Helper lemmas about the view alignment first, then one
theorem (plus witness / counterexample) per claim.
-/

theorem alFind_map_pair_none {l : List Item} {k : String}
    (h : alFind (l.map fun it => (it.id, it)) k = none) :
    ∀ it ∈ l, it.id ≠ k := by
  induction l with
  | nil => intro it hit; cases hit
  | cons x xs ih =>
    intro it hit
    by_cases hx : x.id = k
    · simp [alFind, hx] at h
    · rcases List.mem_cons.mp hit with rfl | hm
      · exact hx
      · refine ih ?_ it hm
        simpa [alFind, hx] using h

theorem alFind_map_pair_some {l : List Item} {k : String} {v : Item}
    (h : alFind (l.map fun it => (it.id, it)) k = some v) :
    v.id = k ∧ v ∈ l := by
  induction l with
  | nil => cases h
  | cons x xs ih =>
    by_cases hx : x.id = k
    · simp only [List.map_cons, alFind, if_pos hx] at h
      cases h
      exact ⟨hx, List.mem_cons_self _ _⟩
    · simp only [List.map_cons, alFind, if_neg hx] at h
      obtain ⟨h1, h2⟩ := ih h
      exact ⟨h1, List.mem_cons_of_mem _ h2⟩

theorem removeFirst_sublist {α : Type} [DecidableEq α] (l : List α) (x : α) :
    List.Sublist (removeFirst l x) l := by
  induction l with
  | nil => exact List.Sublist.refl _
  | cons y ys ih =>
    unfold removeFirst
    by_cases hy : y = x
    · rw [if_pos hy]
      exact List.sublist_cons_self y ys
    · rw [if_neg hy]
      exact ih.cons₂ y

theorem update_item_aligned {s : ConvState} {id : String} {f : Item → Item}
    (h : StoreAligned s) (hf : ∀ it, (f it).id = it.id) :
    StoreAligned (update_item s id f) := by
  obtain ⟨h1, h2⟩ := h
  constructor
  · show s.item_lookup.map _ = (s.items.map _).map _
    rw [h1, List.map_map, List.map_map]
    congr 1
    funext it
    by_cases hit : it.id = id <;> simp [Function.comp, hit, hf]
  · show ((s.items.map _).map Item.id).Nodup
    rw [List.map_map]
    have hcomp : (Item.id ∘ fun it => if it.id = id then f it else it) = Item.id := by
      funext it
      by_cases hit : it.id = id <;> simp [Function.comp, hit, hf]
    rw [hcomp]
    exact h2

theorem aligned_erase {l : List Item} {k : String} {item : Item}
    (hnd : (l.map Item.id).Nodup)
    (h : alFind (l.map fun it => (it.id, it)) k = some item) :
    (removeFirst l item).map (fun it => (it.id, it)) =
      alEraseKey (l.map fun it => (it.id, it)) k := by
  induction l with
  | nil => cases h
  | cons x xs ih =>
    by_cases hx : x.id = k
    · simp only [List.map_cons, alFind, if_pos hx] at h
      cases h
      simp [removeFirst, alEraseKey, hx]
    · simp only [List.map_cons, alFind, if_neg hx] at h
      have hik := (alFind_map_pair_some h).1
      have hne : x ≠ item := fun he => hx (by rw [he]; exact hik)
      simp only [removeFirst, if_neg hne, alEraseKey, List.map_cons, if_neg hx]
      have hnd' : (xs.map Item.id).Nodup := (List.nodup_cons.mp hnd).2
      exact congrArg (List.cons _) (ih hnd' h)


theorem created_variant_spec (it3 : Item) (s2 : ConvState) (p : ItemPayload)
    (hid : it3.id = p.id) :
    (created_variant it3 s2 p).1.id = p.id ∧
    (created_variant it3 s2 p).2.1.item_lookup = s2.item_lookup ∧
    (created_variant it3 s2 p).2.1.items = s2.items := by
  unfold created_variant
  repeat' split
  all_goals exact ⟨hid, rfl, rfl⟩

theorem created_rest_spec (it1 : Item) (s1 : ConvState) (p : ItemPayload)
    (hid : it1.id = p.id) :
    (created_rest it1 s1 p).1.id = p.id ∧
    (created_rest it1 s1 p).2.1.item_lookup = s1.item_lookup ∧
    (created_rest it1 s1 p).2.1.items = s1.items := by
  unfold created_rest
  dsimp only
  split
  · exact created_variant_spec _ _ p hid
  · exact created_variant_spec _ _ p hid

theorem created_core_spec (s : ConvState) (p : ItemPayload) :
    (created_core s p).1.id = p.id ∧
    (created_core s p).2.1.item_lookup = s.item_lookup ∧
    (created_core s p).2.1.items = s.items := by
  unfold created_core
  split
  · exact created_rest_spec _ _ p rfl
  · split
    · exact ⟨rfl, rfl, rfl⟩
    · exact created_rest_spec _ _ p rfl

theorem process_item_created_fst (s : ConvState) (p : ItemPayload) :
    (process_item_created s p).1 =
      (if (alFind s.item_lookup p.id).isNone then
        { (created_core s p).2.1 with
            item_lookup :=
              (created_core s p).2.1.item_lookup ++ [(p.id, (created_core s p).1)],
            items := (created_core s p).2.1.items ++ [(created_core s p).1] }
      else (created_core s p).2.1) := by
  unfold process_item_created
  rcases hc : created_core s p with ⟨it, s1, r⟩
  cases r <;> simp [hc]

theorem process_event_aligned (s : ConvState) (e : REvent)
    (extra : Option (List UInt8)) (h : StoreAligned s) :
    StoreAligned (process_event s e extra).1 := by
  obtain ⟨h1, h2⟩ := h
  cases e with
  | itemCreated p =>
    show StoreAligned (process_item_created s p).1
    rw [process_item_created_fst]
    obtain ⟨hid, hlk, hits⟩ := created_core_spec s p
    by_cases hnew : (alFind s.item_lookup p.id).isNone
    · rw [if_pos hnew]
      have hfresh : alFind s.item_lookup p.id = none := by
        cases hfind : alFind s.item_lookup p.id with
        | none => rfl
        | some v => rw [hfind] at hnew; cases hnew
      rw [h1] at hfresh
      have hnotin := alFind_map_pair_none hfresh
      constructor
      · show _ ++ _ = List.map _ (_ ++ _)
        rw [hlk, hits, h1, List.map_append]
        simp [hid]
      · show (List.map Item.id (_ ++ _)).Nodup
        rw [hits, List.map_append]
        simp only [List.map_cons, List.map_nil]
        refine List.Nodup.append h2 (List.nodup_singleton _) ?_
        intro a ha hb
        simp only [List.mem_map] at ha
        obtain ⟨it0, hit0, rfl⟩ := ha
        simp only [List.mem_singleton] at hb
        rw [hid] at hb
        exact hnotin it0 hit0 hb
    · rw [if_neg hnew]
      exact ⟨by rw [hlk, hits, h1], by rw [hits]; exact h2⟩
  | itemDeleted item_id =>
    simp only [process_event]
    cases hfind : alFind s.item_lookup item_id with
    | none => exact ⟨h1, h2⟩
    | some item =>
      simp only []
      rw [h1] at hfind
      obtain ⟨hik, _⟩ := alFind_map_pair_some hfind
      constructor
      · show alEraseKey s.item_lookup item.id = _
        rw [h1, hik]
        exact (aligned_erase h2 hfind).symm
      · show ((removeFirst s.items item).map Item.id).Nodup
        exact List.Nodup.sublist ((removeFirst_sublist s.items item).map Item.id) h2
  | itemTruncated item_id ms =>
    simp only [process_event]
    repeat' split
    all_goals first
    | exact update_item_aligned ⟨h1, h2⟩ fun it => rfl
    | exact ⟨h1, h2⟩
  | transcriptionCompleted item_id ci tr =>
    simp only [process_event]
    repeat' split
    all_goals first
    | exact update_item_aligned ⟨h1, h2⟩ fun it => rfl
    | exact ⟨h1, h2⟩
  | speechStarted item_id ms =>
    exact ⟨h1, h2⟩
  | speechStopped item_id ms =>
    simp only [process_event]
    repeat' split
    all_goals exact ⟨h1, h2⟩
  | responseCreated r =>
    simp only [process_event]
    repeat' split
    all_goals exact ⟨h1, h2⟩
  | outputItemAdded rid p =>
    simp only [process_event]
    repeat' split
    all_goals exact ⟨h1, h2⟩
  | outputItemDone p =>
    simp only [process_event]
    repeat' split
    all_goals first
    | exact update_item_aligned ⟨h1, h2⟩ fun it => rfl
    | exact ⟨h1, h2⟩
  | contentPartAdded item_id part =>
    simp only [process_event]
    repeat' split
    all_goals first
    | exact update_item_aligned ⟨h1, h2⟩ fun it => rfl
    | exact ⟨h1, h2⟩
  | audioTranscriptDelta item_id ci d =>
    simp only [process_event]
    repeat' split
    all_goals first
    | exact update_item_aligned ⟨h1, h2⟩ fun it => rfl
    | exact ⟨h1, h2⟩
  | audioDelta item_id ci d =>
    simp only [process_event]
    repeat' split
    all_goals first
    | exact update_item_aligned ⟨h1, h2⟩ fun it => rfl
    | exact ⟨h1, h2⟩
  | textDelta item_id ci d =>
    simp only [process_event]
    repeat' split
    all_goals first
    | exact update_item_aligned ⟨h1, h2⟩ fun it => rfl
    | exact ⟨h1, h2⟩
  | fcArgumentsDelta item_id d =>
    simp only [process_event]
    repeat' split
    all_goals first
    | exact update_item_aligned ⟨h1, h2⟩ fun it => rfl
    | exact ⟨h1, h2⟩

/-- C5: starting from an empty store, after any sequence of
`process_event` calls every id in `items_by_id` appears exactly once
in `items`, and it appears at the ordinal the id occupies in
`items_by_id`'s insertion order (invariant I1 / P2: the k-th entry of
the lookup is exactly the k-th element of `items`, keyed by its id, so
`items_by_id[id]` is the very item stored at that ordinal); every
event handler, `conversation.item.created` and
`conversation.item.deleted` included, preserves this. -/
theorem C5_store_alignment (s : ConvState) (h : Reachable s) :
    s.item_lookup = s.items.map (fun it => (it.id, it))
    ∧ (s.items.map Item.id).Nodup
    ∧ ∀ i, i < s.item_lookup.length →
        ∃ it, s.items[i]? = some it ∧ s.item_lookup[i]? = some (it.id, it) := by
  have main : StoreAligned s := by
    induction h with
    | init => exact ⟨rfl, List.nodup_nil⟩
    | step e extra hs ih => exact process_event_aligned _ e extra ih
  obtain ⟨h1, h2⟩ := main
  refine ⟨h1, h2, ?_⟩
  intro i hi
  have hlen : s.item_lookup.length = s.items.length := by
    rw [h1, List.length_map]
  have hj : i < s.items.length := hlen ▸ hi
  refine ⟨s.items[i], List.getElem?_eq_getElem hj, ?_⟩
  rw [h1, List.getElem?_map, List.getElem?_eq_getElem hj]
  rfl

/-- C5 witness: the alignment holds at the concrete state reached by
creating A, creating B, then deleting A. -/
theorem C5_store_alignment_witness :
    c5_state.item_lookup = c5_state.items.map (fun it => (it.id, it)) :=
  (C5_store_alignment c5_state
    (Reachable.step (.itemDeleted "A") none
      (Reachable.step (.itemCreated pB) none
        (Reachable.step (.itemCreated pA) none Reachable.init)))).1

theorem alFind_eq_none_of_not_mem {α : Type} (l : List (String × α)) (k : String)
    (h : k ∉ l.map Prod.fst) : alFind l k = none := by
  induction l with
  | nil => rfl
  | cons x xs ih =>
    simp only [List.map_cons, List.mem_cons] at h
    push_neg at h
    obtain ⟨h1, h2⟩ := h
    cases x with
    | mk k2 v2 =>
      simp only [alFind]
      rw [if_neg fun he => h1 he.symm]
      exact ih h2

theorem alFind_eraseKey_self {α : Type} (l : List (String × α)) (k : String)
    (hnd : (l.map Prod.fst).Nodup) : alFind (alEraseKey l k) k = none := by
  induction l with
  | nil => rfl
  | cons x xs ih =>
    cases x with
    | mk k2 v2 =>
      simp only [List.map_cons] at hnd
      obtain ⟨hnotin, hnd2⟩ := List.nodup_cons.mp hnd
      by_cases hk : k2 = k
      · simp only [alEraseKey, if_pos hk]
        apply alFind_eq_none_of_not_mem
        rw [← hk]
        exact hnotin
      · simp only [alEraseKey, if_neg hk, alFind, if_neg hk]
        exact ih hnd2

theorem alFind_append_single {α : Type} (l : List (String × α)) (k : String) (v : α)
    (h : alFind l k = none) : alFind (l ++ [(k, v)]) k = some v := by
  induction l with
  | nil => simp [alFind]
  | cons x xs ih =>
    cases x with
    | mk k2 v2 =>
      by_cases hk : k2 = k
      · simp [alFind, hk] at h
      · simp only [List.cons_append, alFind, if_neg hk] at h ⊢
        exact ih h

theorem alFind_map_update {α : Type} (l : List (String × α)) (k : String)
    (f : α → α) (v : α) (h : alFind l k = some v) :
    alFind (l.map fun p => if p.1 = k then (p.1, f p.2) else p) k = some (f v) := by
  induction l with
  | nil => cases h
  | cons x xs ih =>
    cases x with
    | mk k2 v2 =>
      simp only [List.map_cons]
      by_cases hk : k2 = k
      · simp only [alFind, if_pos hk] at h
        rw [if_pos (show (k2, v2).1 = k from hk)]
        cases h
        simp [alFind, hk]
      · simp only [alFind, if_neg hk] at h
        rw [if_neg (show ¬(k2, v2).1 = k from hk)]
        simp only [alFind, if_neg hk]
        exact ih h

theorem created_variant_fields (it3 : Item) (s2 : ConvState) (p : ItemPayload) :
    (created_variant it3 s2 p).1.type = it3.type
    ∧ (created_variant it3 s2 p).1.role = it3.role
    ∧ (created_variant it3 s2 p).1.content = it3.content
    ∧ (created_variant it3 s2 p).1.formatted.text = it3.formatted.text
    ∧ (created_variant it3 s2 p).1.formatted.transcript = it3.formatted.transcript
    ∧ (created_variant it3 s2 p).2.1.queued_transcript_items = s2.queued_transcript_items
    ∧ (created_variant it3 s2 p).2.2 = Except.ok () := by
  unfold created_variant
  repeat' split
  all_goals exact ⟨rfl, rfl, rfl, rfl, rfl, rfl, rfl⟩

theorem created_rest_fields (it1 : Item) (s1 : ConvState) (p : ItemPayload) :
    (created_rest it1 s1 p).1.type = it1.type
    ∧ (created_rest it1 s1 p).1.role = it1.role
    ∧ (created_rest it1 s1 p).1.content = it1.content
    ∧ (created_rest it1 s1 p).1.formatted.text = it1.formatted.text ++ seed_text p.content
    ∧ (created_rest it1 s1 p).2.2 = Except.ok () := by
  unfold created_rest
  dsimp only
  split
  · obtain ⟨f1, f2, f3, f4, -, -, f7⟩ := created_variant_fields
      { it1 with formatted :=
        { it1.formatted with text := it1.formatted.text ++ seed_text p.content } } s1 p
    exact ⟨f1, f2, f3, f4, f7⟩
  · rename_i t heq
    obtain ⟨f1, f2, f3, f4, -, -, f7⟩ := created_variant_fields _ _ p
    exact ⟨f1, f2, f3, f4, f7⟩

theorem created_rest_transcript (it1 : Item) (s1 : ConvState) (p : ItemPayload)
    (t : String) (hq : alFind s1.queued_transcript_items p.id = some t)
    (hnd : (s1.queued_transcript_items.map Prod.fst).Nodup) :
    (created_rest it1 s1 p).1.formatted.transcript = t
    ∧ alFind (created_rest it1 s1 p).2.1.queued_transcript_items p.id = none := by
  unfold created_rest
  dsimp only
  rw [hq]
  obtain ⟨-, -, -, -, f5, f6, -⟩ := created_variant_fields _ _ p
  refine ⟨by rw [f5], ?_⟩
  rw [f6]
  exact alFind_eraseKey_self _ _ hnd

theorem created_core_transcript (s : ConvState) (p : ItemPayload) (t : String)
    (hq : alFind s.queued_transcript_items p.id = some t)
    (hnd : (s.queued_transcript_items.map Prod.fst).Nodup)
    (hsp : ∀ sp, alFind s.queued_speech_items p.id = some sp → sp.audio.isSome) :
    (created_core s p).1.formatted.transcript = t
    ∧ alFind (created_core s p).2.1.queued_transcript_items p.id = none
    ∧ (created_core s p).2.2 = Except.ok () := by
  unfold created_core
  cases hfs : alFind s.queued_speech_items p.id with
  | none =>
    dsimp only
    obtain ⟨e1, e2⟩ := created_rest_transcript (mkNewItem p) s p t hq hnd
    exact ⟨e1, e2, (created_rest_fields (mkNewItem p) s p).2.2.2.2⟩
  | some sp =>
    dsimp only
    cases hau : sp.audio with
    | none =>
      have := hsp sp hfs
      rw [hau] at this
      cases this
    | some a =>
      dsimp only
      obtain ⟨e1, e2⟩ := created_rest_transcript
        { mkNewItem p with formatted := { freshFormatted with audio := .flat a } }
        { s with queued_speech_items := alEraseKey s.queued_speech_items p.id }
        p t hq hnd
      exact ⟨e1, e2,
        (created_rest_fields
          { mkNewItem p with formatted := { freshFormatted with audio := .flat a } }
          { s with queued_speech_items := alEraseKey s.queued_speech_items p.id }
          p).2.2.2.2⟩

theorem created_core_fields (s : ConvState) (p : ItemPayload)
    (hsp : ∀ sp, alFind s.queued_speech_items p.id = some sp → sp.audio.isSome) :
    (created_core s p).1.type = p.type
    ∧ (created_core s p).1.role = p.role
    ∧ (created_core s p).1.content = p.content
    ∧ (created_core s p).1.formatted.text = "" ++ seed_text p.content
    ∧ (created_core s p).2.2 = Except.ok () := by
  unfold created_core
  cases hfs : alFind s.queued_speech_items p.id with
  | none =>
    dsimp only
    obtain ⟨f1, f2, f3, f4, f5⟩ := created_rest_fields (mkNewItem p) s p
    exact ⟨f1, f2, f3, f4, f5⟩
  | some sp =>
    dsimp only
    cases hau : sp.audio with
    | none =>
      have := hsp sp hfs
      rw [hau] at this
      cases this
    | some a =>
      dsimp only
      obtain ⟨f1, f2, f3, f4, f5⟩ := created_rest_fields
        { mkNewItem p with formatted := { freshFormatted with audio := .flat a } }
        { s with queued_speech_items := alEraseKey s.queued_speech_items p.id }
        p
      exact ⟨f1, f2, f3, f4, f5⟩

theorem process_item_created_new (s : ConvState) (p : ItemPayload)
    (hnew : alFind s.item_lookup p.id = none)
    (hok : (created_core s p).2.2 = Except.ok ()) :
    process_item_created s p =
      ({ (created_core s p).2.1 with
           item_lookup :=
             (created_core s p).2.1.item_lookup ++ [(p.id, (created_core s p).1)],
           items := (created_core s p).2.1.items ++ [(created_core s p).1] },
       .ok (some (created_core s p).1, none)) := by
  unfold process_item_created
  rcases hc : created_core s p with ⟨it, s1, r⟩
  rw [hc] at hok
  dsimp only at hok ⊢
  cases r with
  | error e => cases hok
  | ok u => simp [hnew]

theorem process_item_created_dup (s : ConvState) (p : ItemPayload)
    (hdup : (alFind s.item_lookup p.id).isNone = false)
    (hok : (created_core s p).2.2 = Except.ok ()) :
    process_item_created s p =
      ((created_core s p).2.1, .ok (some (created_core s p).1, none)) := by
  unfold process_item_created
  rcases hc : created_core s p with ⟨it, s1, r⟩
  rw [hc] at hok
  dsimp only at hok ⊢
  cases r with
  | error e => cases hok
  | ok u => simp [hdup]

theorem process_item_created_dup_error (s : ConvState) (p : ItemPayload)
    (hdup : (alFind s.item_lookup p.id).isNone = false)
    (e : String) (herr : (created_core s p).2.2 = Except.error e) :
    process_item_created s p = ((created_core s p).2.1, .error e) := by
  unfold process_item_created
  rcases hc : created_core s p with ⟨it, s1, r⟩
  rw [hc] at herr
  dsimp only at herr ⊢
  cases r with
  | error e2 => cases herr; simp [hdup]
  | ok u => cases herr

/-- C1 (code bug): truncating item A, whose `formatted.audio` is one
48-byte chunk, with `audio_end_ms = 1` computes `end_index = 24` but
slices the CHUNK LIST (`[:end_index]` keeps 24 chunks), so all 48
bytes survive, where the claim (spec P3, §4.2) demands the
concatenated byte stream be cut to the length-24 prefix; the
transcript is cleared and that part of the claim holds. -/
theorem C1_truncate_slices_chunk_list :
    (1 * default_frequency / 1000 = 24)
    ∧ ((alFind (process_event c1_state (.itemTruncated "A" 1) none).1.item_lookup
        "A").map (fun it => it.formatted.audio.bytes.length) = some 48)
    ∧ ((alFind (process_event c1_state (.itemTruncated "A" 1) none).1.item_lookup
        "A").map (fun it => it.formatted.audio.bytes) ≠
          some (c1_item.formatted.audio.bytes.take 24))
    ∧ ((alFind (process_event c1_state (.itemTruncated "A" 1) none).1.item_lookup
        "A").map (fun it => it.formatted.transcript) = some "") := by
  decide

/-- C2 (code bug): `reset()` calls the async `disconnect()` without
awaiting it, so the coroutine body never runs: on a connected client
with a non-empty store, reset leaves the store with its items and the
transport connected; the subscription table, session config, tool
registry and local audio buffer are reset as claimed, and running the
disconnect body would have cleared the store. -/
theorem C2_reset_skips_disconnect :
    (reset c2_client).conversation = c2_client.conversation
    ∧ (reset c2_client).conversation.items ≠ []
    ∧ (reset c2_client).connected = true
    ∧ (reset c2_client).conversation ≠ ConvState.clear
    ∧ (reset c2_client).session_config = default_session_config
    ∧ (reset c2_client).event_handlers = api_event_handlers
    ∧ (reset c2_client).tools = []
    ∧ (reset c2_client).session_created = false
    ∧ (reset c2_client).input_audio_buffer = []
    ∧ (disconnect_body (reset c2_client)).conversation = ConvState.clear := by
  exact ⟨rfl, by decide, rfl, by decide, rfl, rfl, rfl, rfl, rfl, rfl⟩

/-- C6: create_response sends exactly one response.create; it sends
input_audio_buffer.commit, stashes the local buffer via
queue_input_audio and clears the local buffer, iff turn_detection is
unset and the local buffer is non-empty; otherwise the client state is
untouched and only response.create is sent. -/
theorem C6_create_response (s : ClientState) :
    ((create_response s).2.count Sent.response_create = 1)
    ∧ (Sent.input_audio_buffer_commit ∈ (create_response s).2 ↔
        (get_turn_detection_type s = none ∧ s.input_audio_buffer ≠ []))
    ∧ ((get_turn_detection_type s = none ∧ s.input_audio_buffer ≠ []) →
        (create_response s).1 =
          { s with
              conversation := queue_input_audio s.conversation s.input_audio_buffer,
              input_audio_buffer := [] }
          ∧ (create_response s).2 = [.input_audio_buffer_commit, .response_create])
    ∧ (¬ (get_turn_detection_type s = none ∧ s.input_audio_buffer ≠ []) →
        (create_response s).1 = s ∧ (create_response s).2 = [.response_create]) := by
  by_cases hc : get_turn_detection_type s = none ∧ s.input_audio_buffer ≠ []
  · have he : create_response s =
        ({ s with
             conversation := queue_input_audio s.conversation s.input_audio_buffer,
             input_audio_buffer := [] },
         [.input_audio_buffer_commit, .response_create]) := by
      simp only [create_response, if_pos hc]
    rw [he]
    exact ⟨rfl, ⟨fun _ => hc, fun _ => List.mem_cons_self _ _⟩, fun _ => ⟨rfl, rfl⟩,
      fun hn => absurd hc hn⟩
  · have he : create_response s = (s, [.response_create]) := by
      simp only [create_response, if_neg hc]
    rw [he]
    refine ⟨rfl, ⟨fun hm => ?_, fun hcc => absurd hcc hc⟩,
      fun hcc => absurd hcc hc, fun _ => ⟨rfl, rfl⟩⟩
    simp at hm

/-- C6 witness: evaluated at a freshly constructed client. -/
theorem C6_create_response_witness :
    (create_response empty_client).2.count Sent.response_create = 1 :=
  (C6_create_response empty_client).1

/-- C9: speech_stopped for an id with no queued speech entry fails
(KeyError on `queued_speech_items[item_id]`); with an entry present
and a non-empty buffer, the entry gains `audio_end_ms` and the slice
`buffer[start_ms*rate/1000 : end_ms*rate/1000]` as its audio. -/
theorem C9_speech_stopped (s : ConvState) (item_id : String) (ms : Nat)
    (buf : List UInt8) :
    (alFind s.queued_speech_items item_id = none →
      process_event s (.speechStopped item_id ms) (some buf) = (s, .error item_id))
    ∧ (∀ sp, alFind s.queued_speech_items item_id = some sp → buf ≠ [] →
        process_event s (.speechStopped item_id ms) (some buf) =
          ({ s with
               queued_speech_items :=
                 alUpsert s.queued_speech_items item_id
                   { audio_start_ms := sp.audio_start_ms,
                     audio_end_ms := some ms,
                     audio :=
                       some ((buf.drop (sp.audio_start_ms * default_frequency / 1000)).take
                         (ms * default_frequency / 1000 -
                           sp.audio_start_ms * default_frequency / 1000)) } },
           .ok (none, none))) := by
  constructor
  · intro h
    simp only [process_event, h]
  · intro sp hsp hbuf
    have hne : buf.isEmpty = false := by
      cases buf with
      | nil => exact absurd rfl hbuf
      | cons a l => rfl
    simp only [process_event, hsp, hne]
    rfl

/-- C9 witness: entry for S starting at 0 ms, a 4-byte buffer, stop at
1 ms. -/
theorem C9_speech_stopped_witness :
    process_event c9_state (.speechStopped "S" 1) (some [1, 2, 3, 4]) =
      ({ c9_state with
           queued_speech_items :=
             alUpsert c9_state.queued_speech_items "S"
               { audio_start_ms := 0,
                 audio_end_ms := some 1,
                 audio :=
                   some (([1, 2, 3, 4].drop (0 * default_frequency / 1000)).take
                     (1 * default_frequency / 1000 - 0 * default_frequency / 1000)) } },
       .ok (none, none)) :=
  (C9_speech_stopped c9_state "S" 1 [1, 2, 3, 4]).2
    { audio_start_ms := 0, audio_end_ms := none, audio := none } rfl (by decide)

/-- C3: any failure inside the tool-call loop (invalid JSON arguments,
name absent from the registry, a handler that throws, a
non-serializable result — all surfacing as `tool_attempt = .error msg`)
is caught and materialized as a conversation.item.create of a
function_call_output with output json.dumps of the error object, for
the same call_id, followed by create_response(); call_tool is total,
so no exception reaches the caller of the loop. -/
theorem C3_tool_failure_resolution {A R : Type} (env : ToolCallEnv A R)
    (s : ClientState) (tool : FmtTool) (msg : String)
    (h : tool_attempt env tool = .error msg) :
    call_tool env s tool =
      ((create_response s).1,
        Sent.item_create_function_call_output tool.call_id (json_dumps_error msg)
          :: (create_response s).2)
    ∧ Sent.response_create ∈ (call_tool env s tool).2 := by
  constructor
  · unfold call_tool
    rw [h]
  · unfold call_tool
    rw [h]
    by_cases hc : get_turn_detection_type s = none ∧ s.input_audio_buffer ≠ [] <;>
      simp [create_response, hc]

/-- C3 witness: a tool whose arguments fail to parse as JSON resolves
into an error-carrying function_call_output and a response.create. -/
theorem C3_tool_failure_resolution_witness :
    tool_attempt c3_env c3_tool =
      .error "Expecting value: line 1 column 1 (char 0)"
    ∧ Sent.response_create ∈ (call_tool c3_env empty_client c3_tool).2 :=
  ⟨rfl, (C3_tool_failure_resolution c3_env empty_client c3_tool
      "Expecting value: line 1 column 1 (char 0)" rfl).2⟩

/-- C4 counterexample: `""` is a non-null id, yet `cancel_response("")`
takes the id-less branch (Python truthiness of `not id`), succeeding
with item None and sending only response.cancel although no item with
id `""` exists — refuting "with a non-null id succeeds only if the
item exists". -/
theorem C4_counterexample :
    cancel_response empty_client (some "") 0 = ([.response_cancel], .ok none)
    ∧ alFind empty_client.conversation.item_lookup "" = none := by
  exact ⟨rfl, rfl⟩

/-- C4 (amended: "non-null" tightened to "non-empty", and the
millisecond conversion is the source's binary64 computation
`int((n / rate) * 1000)` — which can land one below the exact
`floor(n * 1000 / rate)`, first at n = 24024 where the floats give
1000 but the exact floor is 1001): with no id, cancel_response sends
only response.cancel and returns item None; with a non-empty id it
succeeds iff the item exists, has type message, role assistant and an
audio content part, and on success sends response.cancel then
conversation.item.truncate with the first audio part's index and
audio_end_ms = audio_end_ms_float sample_count. -/
theorem C4_cancel_response (s : ClientState) (i : String) (n : Nat)
    (hne : i ≠ "") :
    (cancel_response s none n = ([.response_cancel], .ok none))
    ∧ ((cancel_response s (some i) n).2.isOk = true ↔
        ∃ item k, alFind s.conversation.item_lookup i = some item
          ∧ item.type = "message" ∧ item.role = "assistant"
          ∧ first_audio_index item.content = some k)
    ∧ (∀ item k, alFind s.conversation.item_lookup i = some item →
        item.type = "message" → item.role = "assistant" →
        first_audio_index item.content = some k →
        cancel_response s (some i) n =
          ([.response_cancel,
            .item_truncate i k (audio_end_ms_float n)],
           .ok (some item))) := by
  refine ⟨rfl, ?_, ?_⟩
  · simp only [cancel_response, if_neg hne]
    cases hfind : alFind s.conversation.item_lookup i with
    | none =>
      constructor
      · intro hok
        cases hok
      · rintro ⟨item, k, hf, -, -, -⟩
        cases hf
    | some item =>
      by_cases ht : item.type = "message"
      · by_cases hr : item.role = "assistant"
        · cases hai : first_audio_index item.content with
          | none =>
            simp only [ht, hr, hai]
            constructor
            · intro hok
              cases hok
            · rintro ⟨item2, k, hf, -, -, hai2⟩
              cases hf
              rw [hai] at hai2
              cases hai2
          | some k0 =>
            simp only [ht, hr, hai]
            constructor
            · intro _
              exact ⟨item, k0, rfl, ht, hr, hai⟩
            · intro _
              rfl
        · constructor
          · intro hok
            simp [ht, hr] at hok
            cases hok
          · rintro ⟨item2, k, hf, -, hr2, -⟩
            cases hf
            exact absurd hr2 hr
      · constructor
        · intro hok
          simp [ht] at hok
          cases hok
        · rintro ⟨item2, k, hf, ht2, -, -⟩
          cases hf
          exact absurd ht2 ht
  · intro item k hf ht hr hai
    simp only [cancel_response, if_neg hne, hf, ht, hr, hai]
    simp

/-- C4 witness: cancelling assistant message it1 (audio part at index
1) at 12000 samples sends response.cancel then truncate at 500 ms
(exact in binary64); at 24024 samples the float computation gives
1000 ms where the exact floor formula would give 1001. -/
theorem C4_cancel_response_witness :
    (cancel_response c4_client (some "it1") 12000 =
      ([.response_cancel,
        .item_truncate "it1" 1 (audio_end_ms_float 12000)],
       .ok (some c4_item)))
    ∧ audio_end_ms_float 12000 = 500
    ∧ audio_end_ms_float 24024 = 1000
    ∧ 24024 * 1000 / default_frequency = 1001 :=
  ⟨(C4_cancel_response c4_client "it1" 12000 (by decide)).2.2 c4_item 1
      rfl rfl rfl (by decide),
   by decide, by decide, by decide⟩

/-- C7 counterexample: after speech_started X (no audio slice yet) and
a transcript "hi" queued for the unknown X, the creation of X raises
KeyError('audio'); the item is inserted with an empty transcript and
the queued transcript entry survives, refuting the unconditional
hand-off clause. -/
theorem C7_counterexample :
    (alFind c7_state.item_lookup "X").map (fun it => it.formatted.transcript) =
      some ""
    ∧ alFind c7_state.queued_transcript_items "X" = some "hi"
    ∧ (process_event
        (process_event
          (process_event ConvState.clear (.speechStarted "X" 0) none).1
          (.transcriptionCompleted "X" 0 "hi") none).1
        (.itemCreated pX) none).2 = .error "audio" := by
  decide

/-- C7 (amended: the hand-off clause additionally requires that any
pending queued-speech entry for the id already carries its audio
slice; otherwise the created event fails on the missing slice before
the transcript is moved — see the counterexample): a transcript
completion for an unknown item stores transcript-or-space in
queued_transcripts, leaves items and items_by_id untouched and returns
(None, None); when the item is then created, the created item's
formatted.transcript is the queued transcript and the queue entry is
deleted.  Key uniqueness of the queue (a dict in the source) is an
explicit hypothesis. -/
theorem C7_queued_transcript (s : ConvState) (item_id : String) (ci : Nat)
    (tr : String) (p : ItemPayload) (t : String)
    (hmiss : alFind s.item_lookup item_id = none)
    (hpmiss : alFind s.item_lookup p.id = none)
    (hq : alFind s.queued_transcript_items p.id = some t)
    (hnd : (s.queued_transcript_items.map Prod.fst).Nodup)
    (hsp : ∀ sp, alFind s.queued_speech_items p.id = some sp → sp.audio.isSome) :
    (process_event s (.transcriptionCompleted item_id ci tr) none =
      ({ s with
           queued_transcript_items :=
             alUpsert s.queued_transcript_items item_id
               (if tr = "" then " " else tr) },
       .ok (none, none)))
    ∧ ((process_event s (.itemCreated p) none).2 =
        .ok (some (created_core s p).1, none)
      ∧ (created_core s p).1.formatted.transcript = t
      ∧ alFind (process_event s (.itemCreated p) none).1.item_lookup p.id =
          some (created_core s p).1
      ∧ alFind (process_event s (.itemCreated p) none).1.queued_transcript_items
          p.id = none) := by
  constructor
  · simp only [process_event, hmiss]
  · obtain ⟨htr, hqe, hok⟩ := created_core_transcript s p t hq hnd hsp
    obtain ⟨-, hlk, -⟩ := created_core_spec s p
    have hres' : process_event s (.itemCreated p) none = process_item_created s p :=
      rfl
    rw [hres', process_item_created_new s p hpmiss hok]
    refine ⟨rfl, htr, ?_, hqe⟩
    show alFind ((created_core s p).2.1.item_lookup ++ [(p.id, (created_core s p).1)])
      p.id = some (created_core s p).1
    rw [hlk]
    exact alFind_append_single _ _ _ hpmiss

/-- C7 witness: queued transcript "hi" for X is handed to X's item at
creation. -/
theorem C7_queued_transcript_witness :
    (created_core c7_queued pX).1.formatted.transcript = "hi" :=
  ((C7_queued_transcript c7_queued "X" 0 "hi" pX "hi" rfl rfl rfl (by decide)
      (fun sp h => nomatch h)).2).2.1

/-- C8 counterexample: user item U8 got its audio attached as a flat
buffer from the stashed input audio; a later audio delta for U8 fails
with a TypeError and appends nothing, refuting the unconditional
append clause. -/
theorem C8_counterexample :
    (alFind c8_flat_state.item_lookup "U8").map (fun it => it.formatted.audio) =
      some (.flat [9, 9])
    ∧ (process_event c8_flat_state (.audioDelta "U8" 0 "AAAA") none).2 =
        .error "TypeError: can only concatenate list (not bytearray) chunkwise"
    ∧ (process_event c8_flat_state (.audioDelta "U8" 0 "AAAA") none).1 =
        c8_flat_state := by
  decide

/-- C8 (amended: the append clause holds for items whose
formatted.audio is a chunk list — the invariable shape for items fed
by response deltas; an item whose audio was attached flat from the
local input-audio buffer fails instead, see the counterexample): an
audio delta for an unknown item is a silent no-op returning
(None, None), whereas text, audio-transcript and function-call
argument deltas for an unknown item fail; an audio delta for a known
chunk-list item appends the base64-decoded bytes as one chunk. -/
theorem C8_audio_delta (s : ConvState) (item_id : String) (ci : Nat) (d : String) :
    (alFind s.item_lookup item_id = none →
      process_event s (.audioDelta item_id ci d) none = (s, .ok (none, none))
      ∧ process_event s (.textDelta item_id ci d) none =
          (s, .error ("response.text.delta: Item \"" ++ item_id ++ "\" not found"))
      ∧ process_event s (.audioTranscriptDelta item_id ci d) none =
          (s, .error ("response.audio_transcript.delta: Item \"" ++ item_id
            ++ "\" not found"))
      ∧ process_event s (.fcArgumentsDelta item_id d) none =
          (s, .error ("response.function_call_arguments.delta: Item \"" ++ item_id
            ++ "\" not found")))
    ∧ (∀ item l bytes, alFind s.item_lookup item_id = some item →
        item.formatted.audio = .chunks l → b64decode d = some bytes →
        alFind (process_event s (.audioDelta item_id ci d) none).1.item_lookup
            item_id =
          some { item with formatted :=
            { item.formatted with audio := .chunks (l ++ [bytes]) } }
        ∧ (process_event s (.audioDelta item_id ci d) none).2 =
            .ok (some { item with formatted :=
                { item.formatted with audio := .chunks (l ++ [bytes]) } },
              some (.audio bytes))) := by
  constructor
  · intro h
    refine ⟨?_, ?_, ?_, ?_⟩ <;> simp only [process_event, h]
  · intro item l bytes hfind haud hdec
    have hres : process_event s (.audioDelta item_id ci d) none =
        (update_item s item_id (fun it =>
          { it with formatted := { it.formatted with audio := .chunks (l ++ [bytes]) } }),
         .ok (some { item with formatted :=
             { item.formatted with audio := .chunks (l ++ [bytes]) } },
           some (.audio bytes))) := by
      simp only [process_event, hfind, hdec, haud]
    rw [hres]
    refine ⟨?_, rfl⟩
    exact alFind_map_update s.item_lookup item_id
      (fun it => { it with formatted :=
        { it.formatted with audio := AudioData.chunks (l ++ [bytes]) } })
      item hfind

/-- C8 witness: delta "AAECAw==" (bytes 0,1,2,3) is appended as one
chunk to item B8 whose audio held the single chunk [1]. -/
theorem C8_audio_delta_witness :
    (process_event c8_state (.audioDelta "B8" 0 "AAECAw==") none).2 =
      .ok (some { c8_item with formatted :=
          { c8_item.formatted with audio := .chunks ([[1]] ++ [[0, 1, 2, 3]]) } },
        some (.audio [0, 1, 2, 3])) :=
  ((C8_audio_delta c8_state "B8" 0 "AAECAw==").2 c8_item [[1]] [0, 1, 2, 3]
    rfl rfl (by decide)).2

/-- C10 counterexample: D exists and a speech_started entry for D is
pending without an audio slice; replaying D's created event raises
KeyError('audio') instead of returning a fresh copy (items and
items_by_id are indeed unchanged). -/
theorem C10_counterexample :
    (process_event c10_crash_state (.itemCreated pD) none).2 = .error "audio"
    ∧ (process_event c10_crash_state (.itemCreated pD) none).1 = c10_crash_state := by
  decide

/-- C10 (amended: additionally requires any pending queued-speech
entry for the id to carry its audio slice; otherwise the duplicate
created event fails with KeyError('audio') — see the counterexample —
though items and items_by_id stay unchanged even then): a created
event whose id already exists leaves items and items_by_id unchanged
and returns a fresh item built from the event payload and the queues
alone — identity fields are the payload's and formatted.text is
freshly seeded from the payload's content — independent of the stored
item. -/
theorem C10_duplicate_created (s : ConvState) (p : ItemPayload) (stored : Item)
    (hdup : alFind s.item_lookup p.id = some stored)
    (hsp : ∀ sp, alFind s.queued_speech_items p.id = some sp → sp.audio.isSome) :
    (process_event s (.itemCreated p) none).1.item_lookup = s.item_lookup
    ∧ (process_event s (.itemCreated p) none).1.items = s.items
    ∧ (process_event s (.itemCreated p) none).2 =
        .ok (some (created_core s p).1, none)
    ∧ (created_core s p).1.id = p.id
    ∧ (created_core s p).1.type = p.type
    ∧ (created_core s p).1.role = p.role
    ∧ (created_core s p).1.content = p.content
    ∧ (created_core s p).1.formatted.text = "" ++ seed_text p.content := by
  obtain ⟨hid, hlk, hits⟩ := created_core_spec s p
  obtain ⟨f1, f2, f3, f4, f5⟩ := created_core_fields s p hsp
  have hisn : (alFind s.item_lookup p.id).isNone = false := by rw [hdup]; rfl
  have hres' : process_event s (.itemCreated p) none = process_item_created s p :=
    rfl
  rw [hres', process_item_created_dup s p hisn f5]
  exact ⟨hlk, hits, rfl, hid, f1, f2, f3, f4⟩

/-- C10 witness: replaying D's creation with different content leaves
the store unchanged. -/
theorem C10_duplicate_created_witness :
    (process_event c10_state (.itemCreated pD2) none).1.item_lookup =
      c10_state.item_lookup
    ∧ (process_event c10_state (.itemCreated pD2) none).1.items = c10_state.items :=
  have h := C10_duplicate_created c10_state pD2
    (created_core ConvState.clear pD).1 (by decide) (fun sp hh => nomatch hh)
  ⟨h.1, h.2.1⟩
